import Mathlib

/-!
Shallow embedding of `pkg/controller/operands/kubevirt.go` from the
hyperconverged-cluster-operator repository, together with theorems checking
the natural-language specification against it.

Modelling conventions:
* Go `map[string]string` values are modelled as association lists (`Gomap`)
  whose observable behaviour is `lookup`; a read of a missing key yields the
  zero value `""` exactly as in Go.  A *nil* map is distinguished from an
  empty map by wrapping in `Option` where the distinction matters
  (`ConfigMap.data`), because in Go writing to a nil map panics.
* A Go runtime panic is modelled as the `none` result of an `Option`-valued
  function.
* Fallible Go functions returning `(T, error)` are modelled with
  `Except String T`.
* `strings.TrimSpace` is modelled by dropping leading and trailing ASCII
  whitespace (the Unicode/ASCII difference is irrelevant to every statement
  below).
* The cluster client is modelled as a stub (`ClientStub`) fixing the outcome
  of each verb, and each hook's `updateCr` additionally returns the mutated
  live object and the trace of client calls it issued.
-/

/-- Association-list model of a Go `map[string]string`. -/
def Gomap := List (String × String)

instance : DecidableEq Gomap := inferInstanceAs (DecidableEq (List (String × String)))

/-- Read with Go semantics: a missing key yields the zero value `""`. -/
def Gomap.get (m : Gomap) (k : String) : String := (List.lookup k m).getD ""

/-- Lookup returning presence information (`none` = key absent). -/
def Gomap.find (m : Gomap) (k : String) : Option String := List.lookup k m

/-- Removal of a key, modelling Go `delete(m, k)`. -/
def Gomap.erase (m : Gomap) (k : String) : Gomap :=
  List.filter (fun p => p.1 ≠ k) m

/-- Insertion `m[k] = v`.  Go maps are unordered, so any representation with
the right `lookup` behaviour is faithful. -/
def Gomap.insert (m : Gomap) (k v : String) : Gomap := (k, v) :: m.erase k

instance {ε α : Type} [DecidableEq ε] [DecidableEq α] : DecidableEq (Except ε α) := fun a b =>
  match a, b with
  | Except.error e, Except.error e' => decidable_of_iff (e = e') (by simp)
  | Except.ok x, Except.ok y => decidable_of_iff (x = y) (by simp)
  | Except.error _, Except.ok _ => isFalse (by simp)
  | Except.ok _, Except.error _ => isFalse (by simp)

-- ************  constants from kubevirt.go  **************

def kubevirtDefaultNetworkInterfaceValue : String := "masquerade"
def FeatureGatesKey : String := "feature-gates"
def MachineTypeKey : String := "machine-type"
def UseEmulationKey : String := "debug.useEmulation"
def MigrationsConfigKey : String := "migrations"
def NetworkInterfaceKey : String := "default-network-interface"
def SmbiosConfigKey : String := "smbios"
def SELinuxLauncherTypeKey : String := "selinuxLauncherType"
def DefaultNetworkInterface : String := "bridge"

-- KubeVirt hard coded FeatureGates
def kvDataVolumesGate : String := "DataVolumes"
def kvSRIOVGate : String := "SRIOV"
def kvLiveMigrationGate : String := "LiveMigration"
def kvCPUManagerGate : String := "CPUManager"
def kvCPUNodeDiscoveryGate : String := "CPUNodeDiscovery"
def kvSidecarGate : String := "Sidecar"
def kvSnapshotGate : String := "Snapshot"

def hardCodeKvFgs : List String :=
  [kvDataVolumesGate, kvSRIOVGate, kvLiveMigrationGate, kvCPUManagerGate,
   kvCPUNodeDiscoveryGate, kvSidecarGate, kvSnapshotGate]

-- KubeVirt feature gates that are exposed in HCO API
def HotplugVolumesGate : String := "HotplugVolumes"
def kvWithHostPassthroughCPU : String := "WithHostPassthroughCPU"
def kvWithHostModelCPU : String := "WithHostModelCPU"
def SRIOVLiveMigrationGate : String := "SRIOVLiveMigration"
def kvHypervStrictCheck : String := "HypervStrictCheck"
def GPUGate : String := "GPU"
def HostDevicesGate : String := "HostDevices"
def SELinuxLauncherType : String := "virt_launcher.process"

-- ************  parent record (HyperConverged)  **************

/-- Modelled from the spec: the parent record's feature-gate sub-structure
(type `hcov1beta1.HyperConvergedFeatureGates`, defined outside the source
file under verification) exposes one boolean accessor per conditionally
exposed gate; we model it as one boolean per accessor. -/
structure HyperConvergedFeatureGates where
  hotplugVolumes : Bool := false
  withHostPassthroughCPU : Bool := false
  withHostModelCPU : Bool := false
  sriovLiveMigration : Bool := false
  hypervStrictCheck : Bool := false
  gpu : Bool := false
  hostDevices : Bool := false
deriving DecidableEq

def HyperConvergedFeatureGates.IsHotplugVolumesEnabled (f : HyperConvergedFeatureGates) : Bool :=
  f.hotplugVolumes

def HyperConvergedFeatureGates.IsWithHostPassthroughCPUEnabled (f : HyperConvergedFeatureGates) : Bool :=
  f.withHostPassthroughCPU

def HyperConvergedFeatureGates.IsWithHostModelCPUEnabled (f : HyperConvergedFeatureGates) : Bool :=
  f.withHostModelCPU

def HyperConvergedFeatureGates.IsSRIOVLiveMigrationEnabled (f : HyperConvergedFeatureGates) : Bool :=
  f.sriovLiveMigration

def HyperConvergedFeatureGates.IsHypervStrictCheckEnabled (f : HyperConvergedFeatureGates) : Bool :=
  f.hypervStrictCheck

def HyperConvergedFeatureGates.IsGPUAssignmentEnabled (f : HyperConvergedFeatureGates) : Bool :=
  f.gpu

def HyperConvergedFeatureGates.IsHostDevicesAssignmentEnabled (f : HyperConvergedFeatureGates) : Bool :=
  f.hostDevices

/-- Node-placement data carried by the parent; affinity and tolerations are
opaque payloads (deep-copied by value in the source, which is the identity in
a pure model). -/
structure NodePlacement where
  affinity : Option String := none
  nodeSelector : Gomap := []
  tolerations : List String := []
deriving DecidableEq

structure HyperConvergedConfig where
  nodePlacement : Option NodePlacement := none
deriving DecidableEq

structure HyperConvergedSpec where
  infra : HyperConvergedConfig := {}
  workloads : HyperConvergedConfig := {}
  featureGates : HyperConvergedFeatureGates := {}
deriving DecidableEq

structure HyperConverged where
  name : String := ""
  nspace : String := ""
  spec : HyperConvergedSpec := {}
deriving DecidableEq

-- ************  feature-gate resolver  **************

/-- `getFeatureGateChecks` returns a Go map from gate name to accessor; we
model it as the association list in the order of the source's map literal,
with each accessor already evaluated.  (Go map iteration order is
unspecified; the fixed order here is one admissible schedule.) -/
def getFeatureGateChecks (featureGates : HyperConvergedFeatureGates) : List (String × Bool) :=
  [(HotplugVolumesGate, featureGates.IsHotplugVolumesEnabled),
   (kvWithHostPassthroughCPU, featureGates.IsWithHostPassthroughCPUEnabled),
   (kvWithHostModelCPU, featureGates.IsWithHostModelCPUEnabled),
   (SRIOVLiveMigrationGate, featureGates.IsSRIOVLiveMigrationEnabled),
   (kvHypervStrictCheck, featureGates.IsHypervStrictCheckEnabled),
   (GPUGate, featureGates.IsGPUAssignmentEnabled),
   (HostDevicesGate, featureGates.IsHostDevicesAssignmentEnabled)]

/-- `getKvFeatureGateList`: the hard-coded gates followed by every
conditionally exposed gate whose accessor evaluates true. -/
def getKvFeatureGateList (fgs : HyperConvergedFeatureGates) : List String :=
  hardCodeKvFgs ++ (List.filter (fun c => c.2) (getFeatureGateChecks fgs)).map Prod.fst

-- ************  process environment  **************

/-- Snapshot of the three environment variables consulted by the builders
(`KVM_EMULATION`, `SMBIOS`, `MACHINETYPE`); `none` models an unset variable
(`os.LookupEnv` returning `ok = false`). -/
structure Env where
  kvmEmulation : Option String := none
  smbios : Option String := none
  machineType : Option String := none
deriving DecidableEq

/-- Go's `strconv.ParseBool`, `none` modelling a parse error. -/
def parseBool (s : String) : Option Bool :=
  if s = "1" ∨ s = "t" ∨ s = "T" ∨ s = "true" ∨ s = "TRUE" ∨ s = "True" then some true
  else if s = "0" ∨ s = "f" ∨ s = "F" ∨ s = "false" ∨ s = "FALSE" ∨ s = "False" then some false
  else none

/-- Go's `strings.TrimSpace`: drop leading and trailing whitespace
(ASCII-whitespace model, implemented structurally so that proofs can
evaluate it). -/
def trimSpace (s : String) : String :=
  String.mk (((s.data.dropWhile Char.isWhitespace).reverse.dropWhile Char.isWhitespace).reverse)

-- ************  KubeVirt resource model  **************

/-- `kubevirtv1.SMBiosConfiguration`. -/
structure SMBiosConfiguration where
  family : String := ""
  manufacturer : String := ""
  product : String := ""
  sku : String := ""
  version : String := ""
deriving DecidableEq

structure NetworkConfiguration where
  networkInterface : String := ""
deriving DecidableEq

structure DeveloperConfiguration where
  featureGates : List String := []
  useEmulation : Bool := false
deriving DecidableEq

structure KubeVirtConfiguration where
  developerConfiguration : Option DeveloperConfiguration := none
  selinuxLauncherType : String := ""
  networkConfiguration : Option NetworkConfiguration := none
  smbiosConfig : Option SMBiosConfiguration := none
  machineType : String := ""
deriving DecidableEq

structure ComponentConfig where
  nodePlacement : Option NodePlacement := none
deriving DecidableEq

def KubeVirtUninstallStrategyBlockUninstallIfWorkloadsExist : String :=
  "BlockUninstallIfWorkloadsExist"

def MasqueradeInterface : String := "masquerade"

structure KubeVirtSpec where
  uninstallStrategy : String := ""
  infra : Option ComponentConfig := none
  workloads : Option ComponentConfig := none
  configuration : KubeVirtConfiguration := {}
deriving DecidableEq

/-- The metadata fields this code reads or writes. -/
structure ObjectMeta where
  name : String := ""
  nspace : String := ""
  labels : Gomap := []
deriving DecidableEq

structure KubeVirtStatus where
  observedKubeVirtVersion : String := ""
deriving DecidableEq

structure KubeVirt where
  objectMeta : ObjectMeta := {}
  spec : KubeVirtSpec := {}
  status : KubeVirtStatus := {}
deriving DecidableEq

def AppComponentCompute : String := "compute"

/-- Modelled from the spec: `getLabels` (defined in the operand utilities,
outside the source file under verification) derives the ownership label set
from the parent record; only its determinism matters to the claims. -/
def getLabels (hc : HyperConverged) (component : String) : Gomap :=
  [("app", "kubevirt-hyperconverged"),
   ("app.kubernetes.io/managed-by", hc.name),
   ("app.kubernetes.io/component", component)]

/-- Modelled from the spec: `util.DeepCopyLabels` copies the label map of
`src` into `dst`. -/
def DeepCopyLabels (src dst : ObjectMeta) : ObjectMeta :=
  { dst with labels := src.labels }

-- ************  desired-state builders  **************

def hcoConfig2KvConfig (hcoConfig : HyperConvergedConfig) : Option ComponentConfig :=
  match hcoConfig.nodePlacement with
  | some np => some { nodePlacement := some np }
  | none => none

/-- `getKVDevConfig`: resolves the gate list and the `KVM_EMULATION`
override; an unparsable non-blank override is an error, and a developer
configuration is built when the gate list is non-empty or emulation is on. -/
def getKVDevConfig (env : Env) (hc : HyperConverged) :
    Except String (Option DeveloperConfiguration) :=
  let fgs := getKvFeatureGateList hc.spec.featureGates
  let emu : Except String Bool :=
    match env.kvmEmulation with
    | some s =>
      let s := trimSpace s
      if s ≠ "" then
        (match parseBool s with
         | some b => Except.ok b
         | none => Except.error ("strconv.ParseBool: parsing " ++ s ++ ": invalid syntax"))
      else Except.ok false
    | none => Except.ok false
  match emu with
  | Except.error e => Except.error e
  | Except.ok kvmEmulation =>
    if fgs.length > 0 ∨ kvmEmulation then
      Except.ok (some { featureGates := fgs, useEmulation := kvmEmulation })
    else
      Except.ok none

/-- `getKVConfig`.  The SMBIOS YAML/JSON decoder lives in an external
library, so it is a parameter (`decodeSmbios`); in the Go source a decode
error is returned alongside the partially built config, but the only caller
discards the config when the error is non-nil, so `Except` is faithful. -/
def getKVConfig (decodeSmbios : String → Except String SMBiosConfiguration)
    (env : Env) (hc : HyperConverged) : Except String KubeVirtConfiguration :=
  match getKVDevConfig env hc with
  | Except.error e => Except.error e
  | Except.ok devConfig =>
    let config : KubeVirtConfiguration :=
      { developerConfiguration := devConfig
        selinuxLauncherType := SELinuxLauncherType
        networkConfiguration := some { networkInterface := MasqueradeInterface } }
    let withSmbios : Except String KubeVirtConfiguration :=
      match env.smbios with
      | some smbiosConfig =>
        let smbiosConfig := trimSpace smbiosConfig
        if smbiosConfig ≠ "" then
          match decodeSmbios smbiosConfig with
          | Except.error e => Except.error e
          | Except.ok sm => Except.ok { config with smbiosConfig := some sm }
        else Except.ok config
      | none => Except.ok config
    match withSmbios with
    | Except.error e => Except.error e
    | Except.ok config =>
      match env.machineType with
      | some val =>
        let val := trimSpace val
        if val ≠ "" then Except.ok { config with machineType := val }
        else Except.ok config
      | none => Except.ok config

def NewKubeVirtWithNameOnly (hc : HyperConverged) : KubeVirt :=
  { objectMeta :=
      { name := "kubevirt-" ++ hc.name
        labels := getLabels hc AppComponentCompute
        nspace := hc.nspace } }

/-- `NewKubeVirt`.  `applyPatchToSpec` (the JSON-patch annotation override,
defined in the operand utilities outside the source file under verification)
is a parameter; modelled from the spec: it is applied last, may alter any
field, and its failure is a hard error that discards the object. -/
def NewKubeVirt (decodeSmbios : String → Except String SMBiosConfiguration)
    (applyPatchToSpec : KubeVirt → Except String KubeVirt)
    (env : Env) (hc : HyperConverged) : Except String KubeVirt :=
  match getKVConfig decodeSmbios env hc with
  | Except.error e => Except.error e
  | Except.ok config =>
    let spec : KubeVirtSpec :=
      { uninstallStrategy := KubeVirtUninstallStrategyBlockUninstallIfWorkloadsExist
        infra := hcoConfig2KvConfig hc.spec.infra
        workloads := hcoConfig2KvConfig hc.spec.workloads
        configuration := config }
    let kv := { NewKubeVirtWithNameOnly hc with spec := spec }
    match applyPatchToSpec kv with
    | Except.error e => Except.error e
    | Except.ok kv => Except.ok kv

-- ************  reconciliation request and client model  **************

/-- The request-scoped flags consulted by the hooks (`common.HcoRequest`). -/
structure HcoRequest where
  hcoTriggered : Bool := false
  upgradeMode : Bool := false
deriving DecidableEq

/-- One call issued to the cluster client. -/
inductive ClientAction (α : Type) where
  | update (o : α)
  | delete (o : α)
  | create (o : α)
deriving DecidableEq

/-- Stubbed cluster client: fixes the outcome of each verb (`none` =
success, `some e` = the error the call returns). -/
structure ClientStub where
  updateErr : Option String := none
  deleteErr : Option String := none
  createErr : Option String := none
deriving DecidableEq

/-- Result of a hook's `updateCr`: the `(changed, isUpgradeForcedChange,
error)` triple returned by the Go function, plus the live object after its
in-place mutation and the trace of client calls issued. -/
structure UpdateOutcome (α : Type) where
  changed : Bool
  forced : Bool
  err : Option String := none
  live : α
  calls : List (ClientAction α) := []
deriving DecidableEq

-- ************  KubeVirt hooks  **************

/-- `kubevirtHooks`: the single-slot desired-object cache. -/
structure kubevirtHooks where
  cache : Option KubeVirt := none
deriving DecidableEq

/-- `kubevirtHooks.getFullCr`: returns the cached desired object if present,
else builds it with `NewKubeVirt` and caches it.  The mutable receiver is
modelled by returning the updated hook state. -/
def kubevirtHooks.getFullCr (decodeSmbios : String → Except String SMBiosConfiguration)
    (applyPatchToSpec : KubeVirt → Except String KubeVirt) (env : Env)
    (h : kubevirtHooks) (hc : HyperConverged) :
    Except String KubeVirt × kubevirtHooks :=
  match h.cache with
  | some kv => (Except.ok kv, h)
  | none =>
    match NewKubeVirt decodeSmbios applyPatchToSpec env hc with
    | Except.error e => (Except.error e, h)
    | Except.ok kv => (Except.ok kv, { h with cache := some kv })

def kubevirtHooks.reset (h : kubevirtHooks) : kubevirtHooks :=
  { h with cache := none }

/-- `kubevirtHooks.updateCr`: diff live against desired on `Spec` and
`Labels`; on difference copy labels and spec into the live object and issue
one update. -/
def kubevirtHooks.updateCr (req : HcoRequest) (cl : ClientStub)
    (found virt : KubeVirt) : UpdateOutcome KubeVirt :=
  if found.spec ≠ virt.spec ∨ found.objectMeta.labels ≠ virt.objectMeta.labels then
    let found' : KubeVirt :=
      { found with
          objectMeta := DeepCopyLabels virt.objectMeta found.objectMeta
          spec := virt.spec }
    match cl.updateErr with
    | some e =>
      { changed := false, forced := false, err := some e, live := found',
        calls := [ClientAction.update found'] }
    | none =>
      { changed := true, forced := !req.hcoTriggered, err := none, live := found',
        calls := [ClientAction.update found'] }
  else
    { changed := false, forced := false, err := none, live := found, calls := [] }

-- ************  KubeVirt ConfigMap model and hooks  **************

/-- `corev1.ConfigMap`, restricted to the fields this code touches.  `data`
is `Option` so that a nil Go map is distinguished from an empty one. -/
structure ConfigMap where
  objectMeta : ObjectMeta := {}
  data : Option Gomap := none
deriving DecidableEq

/-- Go read `cm.Data[k]` (defaults to `""`; reading a nil map is fine). -/
def ConfigMap.dataGet (cm : ConfigMap) (k : String) : String :=
  (cm.data.getD []).get k

/-- Key presence/value in the data map (`none` = key absent or map nil). -/
def ConfigMap.dataFind (cm : ConfigMap) (k : String) : Option String :=
  (cm.data.getD []).find k

/-- `kvConfigHooks.updateData`: reconcile the feature-gates key by direct
string replacement.  `none` models the Go panic of writing into a nil map. -/
def kvConfigHooks.updateData (found required : ConfigMap) :
    Option (ConfigMap × Bool) :=
  if found.dataGet FeatureGatesKey ≠ required.dataGet FeatureGatesKey then
    match found.data with
    | none => none
    | some m =>
      some ({ found with data := some (m.insert FeatureGatesKey (required.dataGet FeatureGatesKey)) },
            true)
  else some (found, false)

/-- `kvConfigHooks.forceDefaultValues` for a single key `k`. -/
def kvConfigHooks.forceDefaultValues (found required : ConfigMap) (k : String) :
    Option (ConfigMap × Bool) :=
  if found.dataGet k ≠ required.dataGet k then
    match found.data with
    | none => none
    | some m =>
      some ({ found with data := some (m.insert k (required.dataGet k)) }, true)
  else some (found, false)

/-- One step of the loop body of `forceDefaultKeys`
(`changed = forceDefaultValues(...) || changed`, always evaluated). -/
def kvConfigHooks.forceStep (required : ConfigMap) (st : ConfigMap × Bool) (k : String) :
    Option (ConfigMap × Bool) :=
  match kvConfigHooks.forceDefaultValues st.1 required k with
  | none => none
  | some (f, c) => some (f, c || st.2)

/-- `kvConfigHooks.forceDefaultKeys`: force the four allow-listed keys. -/
def kvConfigHooks.forceDefaultKeys (found required : ConfigMap) :
    Option (ConfigMap × Bool) :=
  List.foldlM (kvConfigHooks.forceStep required) (found, false)
    [SmbiosConfigKey, MachineTypeKey, SELinuxLauncherTypeKey, UseEmulationKey]

/-- `kvConfigHooks.removeOldKeys`: drop the deprecated migrations key if
present (Go `delete` on a nil map is a no-op, so no panic case). -/
def kvConfigHooks.removeOldKeys (found : ConfigMap) : ConfigMap × Bool :=
  if (found.dataFind MigrationsConfigKey).isSome then
    ({ found with data := found.data.map (fun m => m.erase MigrationsConfigKey) }, true)
  else (found, false)

/-- `kvConfigHooks.updateDataOnUpgrade`. -/
def kvConfigHooks.updateDataOnUpgrade (found required : ConfigMap) :
    Option (ConfigMap × Bool) :=
  match kvConfigHooks.forceDefaultKeys found required with
  | none => none
  | some (f, c1) =>
    let (f, c2) := kvConfigHooks.removeOldKeys f
    some (f, c1 || c2)

/-- `kvConfigHooks.updateKvConfigMap`: the single update issuance; note the
second component of the triple is hard-coded `false`. -/
def kvConfigHooks.updateKvConfigMap (cl : ClientStub) (found : ConfigMap) :
    UpdateOutcome ConfigMap :=
  match cl.updateErr with
  | some e =>
    { changed := false, forced := false, err := some e, live := found,
      calls := [ClientAction.update found] }
  | none =>
    { changed := true, forced := false, err := none, live := found,
      calls := [ClientAction.update found] }

/-- `kvConfigHooks.updateCr`.  `none` models a Go panic (nil data map). -/
def kvConfigHooks.updateCr (req : HcoRequest) (cl : ClientStub)
    (found required : ConfigMap) : Option (UpdateOutcome ConfigMap) :=
  match (if req.upgradeMode then kvConfigHooks.updateDataOnUpgrade found required
         else some (found, false)) with
  | none => none
  | some (f1, c1) =>
    match kvConfigHooks.updateData f1 required with
    | none => none
    | some (f2, c2) =>
      let changed := c2 || c1
      let (f3, changed) :=
        if f2.objectMeta.labels ≠ required.objectMeta.labels then
          ({ f2 with objectMeta := DeepCopyLabels required.objectMeta f2.objectMeta }, true)
        else (f2, changed)
      if changed then some (kvConfigHooks.updateKvConfigMap cl f3)
      else some { changed := false, forced := false, err := none, live := f3, calls := [] }

-- ************  KubeVirt priority class model and hooks  **************

structure PriorityClass where
  objectMeta : ObjectMeta := {}
  value : Int := 0
  globalDefault : Bool := false
  description : String := ""
deriving DecidableEq

def NewKubeVirtPriorityClass (hc : HyperConverged) : PriorityClass :=
  { objectMeta :=
      { name := "kubevirt-cluster-critical"
        labels := getLabels hc AppComponentCompute }
    value := 1000000000
    globalDefault := false
    description := "This priority class should be used for KubeVirt core components only." }

/-- `kvPriorityClassHooks.updateCr`: compare name, value, description and
labels; on any difference delete the live object, then create the desired
one (priority classes cannot be patched). -/
def kvPriorityClassHooks.updateCr (req : HcoRequest) (cl : ClientStub)
    (found pc : PriorityClass) : UpdateOutcome PriorityClass :=
  if pc.objectMeta.name = found.objectMeta.name ∧ pc.value = found.value ∧
     pc.description = found.description ∧ pc.objectMeta.labels = found.objectMeta.labels then
    { changed := false, forced := false, err := none, live := found, calls := [] }
  else
    match cl.deleteErr with
    | some e =>
      { changed := false, forced := false, err := some e, live := found,
        calls := [ClientAction.delete found] }
    | none =>
      match cl.createErr with
      | some e =>
        { changed := false, forced := false, err := some e, live := found,
          calls := [ClientAction.delete found, ClientAction.create pc] }
      | none =>
        { changed := true, forced := !req.hcoTriggered, err := none, live := found,
          calls := [ClientAction.delete found, ClientAction.create pc] }

-- ************  KubeVirt ConfigMap builder  **************

/-- One `val, ok := os.LookupEnv(name); if ok && val != "" { cm.Data[key] = val }`
block of `NewKubeVirtConfigForCR` (the raw value is used, untrimmed). -/
def addEnvOverride (d : Gomap) (key : String) (o : Option String) : Gomap :=
  match o with
  | some val => if val ≠ "" then d.insert key val else d
  | none => d

/-- `NewKubeVirtConfigForCR`.  Note: unlike `getKVConfig`, the raw (untrimmed)
environment values are used and the emptiness test is on the raw string. -/
def NewKubeVirtConfigForCR (env : Env) (cr : HyperConverged) (nspace : String) : ConfigMap :=
  let fgs := getKvFeatureGateList cr.spec.featureGates
  let featureGates := String.intercalate "," fgs
  let base : Gomap :=
    [(FeatureGatesKey, featureGates),
     (SELinuxLauncherTypeKey, "virt_launcher.process"),
     (NetworkInterfaceKey, kubevirtDefaultNetworkInterfaceValue)]
  let d := addEnvOverride base SmbiosConfigKey env.smbios
  let d := addEnvOverride d MachineTypeKey env.machineType
  let d := addEnvOverride d UseEmulationKey env.kvmEmulation
  { objectMeta :=
      { name := "kubevirt-config"
        labels := getLabels cr AppComponentCompute
        nspace := nspace }
    data := some d }


-- ************  spec-side definition for the config-data claim  **************

/-- The per-key content of the config resource's data mapping as the spec
describes it, with the override condition stated as the code implements it
(raw value set and non-empty; no trimming).  Used to compare the builder
against the spec's enumeration of keys. -/
def expectedConfigData (env : Env) (cr : HyperConverged) (k : String) : Option String :=
  if k = FeatureGatesKey then
    some (String.intercalate "," (getKvFeatureGateList cr.spec.featureGates))
  else if k = SELinuxLauncherTypeKey then some "virt_launcher.process"
  else if k = NetworkInterfaceKey then some kubevirtDefaultNetworkInterfaceValue
  else if k = SmbiosConfigKey then
    (match env.smbios with
     | some val => if val ≠ "" then some val else none
     | none => none)
  else if k = MachineTypeKey then
    (match env.machineType with
     | some val => if val ≠ "" then some val else none
     | none => none)
  else if k = UseEmulationKey then
    (match env.kvmEmulation with
     | some val => if val ≠ "" then some val else none
     | none => none)
  else none

-- ************  concrete fixtures used in witnesses and counterexamples  **************

/-- A sample SMBIOS decoder for concrete evaluations (the real decoder is an
external library; the theorems about it are decoder-generic). -/
def decode0 : String → Except String SMBiosConfiguration := fun _ => Except.ok {}

def hcEmpty : HyperConverged := {}

def envEmpty : Env := {}

/-- Environment of the C7 scenario: machine-type override plus an invalid
emulation boolean. -/
def envBadEmulation : Env := { kvmEmulation := some "maybe", machineType := some "q35" }

/-- Environment with a whitespace-only (blank but non-empty) SMBIOS value. -/
def envBlankSmbios : Env := { smbios := some " " }

def foundCmFixture : ConfigMap := { data := some [(FeatureGatesKey, "old")] }

def requiredCmFixture : ConfigMap := { data := some [(FeatureGatesKey, "new")] }

def nilDataCmFixture : ConfigMap := { data := none }

def cachedKvFixture : KubeVirt := { objectMeta := { name := "cached" } }

def foundKvFixture : KubeVirt := { spec := { uninstallStrategy := "old" } }

def desiredKvFixture : KubeVirt := { spec := { uninstallStrategy := "new" } }

def foundPcFixture : PriorityClass := { value := 5 }

/-- The desired KubeVirt object built from the empty parent with no
environment overrides and no patch annotation. -/
def builtKv : KubeVirt :=
  (NewKubeVirt decode0 Except.ok envEmpty hcEmpty).toOption.getD {}

/-- The outcome of the config-resource `updateCr` on the feature-gate drift
fixture, for use in closed witnesses. -/
def configUpdateOutFixture : UpdateOutcome ConfigMap :=
  (kvConfigHooks.updateCr { hcoTriggered := false, upgradeMode := false } {}
      foundCmFixture requiredCmFixture).getD
    { changed := false, forced := false, live := foundCmFixture }

/-- The config resource desired object built from the empty parent. -/
def requiredBuiltCmFixture : ConfigMap := NewKubeVirtConfigForCR envEmpty hcEmpty "ns"

/-- A live config resource with a non-default SELinux launcher type and a
leftover migrations key. -/
def upgradeFoundCmFixture : ConfigMap :=
  { data := some [(FeatureGatesKey, "old"), (SELinuxLauncherTypeKey, "custom_t"),
                  (MigrationsConfigKey, "{}")] }
-- ************  helper lemmas about the map model  **************

theorem Gomap.lookup_cons (a b k : String) (t : List (String × String)) :
    List.lookup k ((a, b) :: t) = if k == a then some b else List.lookup k t := by
  cases h : k == a <;> simp [List.lookup, h]

theorem Gomap.find_insert_self (m : Gomap) (k v : String) :
    (m.insert k v).find k = some v := by
  simp [Gomap.find, Gomap.insert, Gomap.lookup_cons]

theorem Gomap.find_erase (m : Gomap) (k k' : String) (h : k' ≠ k) :
    (m.erase k).find k' = m.find k' := by
  induction m with
  | nil => rfl
  | cons p t ih =>
    rcases p with ⟨a, b⟩
    by_cases hak : a = k
    · have h1 : (k' == k) = false := beq_eq_false_iff_ne.mpr h
      simpa [Gomap.erase, Gomap.find, List.filter_cons, Gomap.lookup_cons, hak, h1] using ih
    · by_cases hk'a : k' = a
      · simp [Gomap.erase, Gomap.find, List.filter_cons, Gomap.lookup_cons, hak, hk'a]
      · have h1 : (k' == a) = false := beq_eq_false_iff_ne.mpr hk'a
        simpa [Gomap.erase, Gomap.find, List.filter_cons, Gomap.lookup_cons, hak, h1] using ih

theorem Gomap.find_insert_ne (m : Gomap) (k v k' : String) (h : k' ≠ k) :
    (m.insert k v).find k' = m.find k' := by
  have h1 : (k' == k) = false := beq_eq_false_iff_ne.mpr h
  simp only [Gomap.insert, Gomap.find, Gomap.lookup_cons, h1, if_false, Bool.false_eq_true]
  simpa [Gomap.find] using Gomap.find_erase m k k' h

theorem Gomap.find_erase_self (m : Gomap) (k : String) :
    (m.erase k).find k = none := by
  induction m with
  | nil => rfl
  | cons p t ih =>
    rcases p with ⟨a, b⟩
    by_cases hak : a = k
    · simpa [Gomap.erase, Gomap.find, List.filter_cons, hak] using ih
    · have h1 : (k == a) = false := beq_eq_false_iff_ne.mpr (Ne.symm hak)
      simpa [Gomap.erase, Gomap.find, List.filter_cons, Gomap.lookup_cons, hak, h1] using ih

theorem Gomap.get_eq_find_getD (m : Gomap) (k : String) :
    m.get k = (m.find k).getD "" := rfl

-- ************  helper lemmas: the resolved gate string is never empty  **************

theorem intercalate_go_length_le (s : String) (l : List String) (acc : String) :
    acc.length ≤ (String.intercalate.go acc s l).length := by
  induction l generalizing acc with
  | nil => simp [String.intercalate.go]
  | cons a as ih =>
    simp only [String.intercalate.go]
    calc acc.length ≤ (acc ++ s ++ a).length := by
          simp [String.length_append]; omega
    _ ≤ _ := ih _

theorem featureGates_string_ne_empty (fgs : HyperConvergedFeatureGates) :
    String.intercalate "," (getKvFeatureGateList fgs) ≠ "" := by
  have hcons : ∃ tl, getKvFeatureGateList fgs = kvDataVolumesGate :: tl := by
    simp [getKvFeatureGateList, hardCodeKvFgs]
  rcases hcons with ⟨tl, htl⟩
  rw [htl]
  intro hcontra
  have hlen : kvDataVolumesGate.length ≤ (String.intercalate "," (kvDataVolumesGate :: tl)).length := by
    simpa [String.intercalate] using intercalate_go_length_le "," tl kvDataVolumesGate
  rw [hcontra] at hlen
  simp [kvDataVolumesGate] at hlen
  exact absurd hlen (by decide)

-- ************  claim theorems  **************

-- helper lemma for C3
theorem mem_map_fst_filter_snd (l : List (String × Bool)) (g : String) :
    g ∈ (List.filter (fun c => c.2) l).map Prod.fst ↔ (g, true) ∈ l := by
  induction l with
  | nil => simp
  | cons hd tl ih =>
    rcases hd with ⟨a, b⟩
    cases b <;> simp [List.filter, ih]

/-- C3: for every feature-gate configuration, the resolved gate list starts
with the hard-coded gate list in its order, and the remainder consists of
exactly the conditionally exposed gates whose accessor evaluates true. -/
theorem gate_list_is_hardcoded_then_enabled (fgs : HyperConvergedFeatureGates) :
    (getKvFeatureGateList fgs).take hardCodeKvFgs.length = hardCodeKvFgs ∧
    ∀ g : String,
      g ∈ (getKvFeatureGateList fgs).drop hardCodeKvFgs.length ↔
        (g, true) ∈ getFeatureGateChecks fgs := by
  constructor
  · simp [getKvFeatureGateList, List.take_left]
  · intro g
    simp only [getKvFeatureGateList, List.drop_left]
    exact mem_map_fst_filter_snd _ g


-- helper lemmas about the developer-configuration builder

theorem getKVDevConfig_ok (env : Env) (hc : HyperConverged)
    (d : Option DeveloperConfiguration)
    (h : getKVDevConfig env hc = Except.ok d) :
    ∃ dc, d = some dc ∧ dc.featureGates = getKvFeatureGateList hc.spec.featureGates := by
  have hlen : 0 < (getKvFeatureGateList hc.spec.featureGates).length := by
    simp [getKvFeatureGateList, hardCodeKvFgs]
  simp only [getKVDevConfig] at h
  split at h
  · exact absurd h (by simp)
  · rw [if_pos (Or.inl hlen)] at h
    cases h
    exact ⟨_, rfl, rfl⟩

theorem getKVConfig_ok_devsome (decodeSmbios : String → Except String SMBiosConfiguration)
    (env : Env) (hc : HyperConverged) (config : KubeVirtConfiguration)
    (h : getKVConfig decodeSmbios env hc = Except.ok config) :
    config.developerConfiguration.isSome = true := by
  simp only [getKVConfig] at h
  split at h
  · exact absurd h (by simp)
  · rename_i devConfig hdev
    obtain ⟨dc, rfl, -⟩ := getKVDevConfig_ok env hc devConfig hdev
    split at h
    · exact absurd h (by simp)
    · rename_i config1 hsm
      -- the smbios step does not change the developerConfiguration field
      have hdev1 : config1.developerConfiguration = some dc := by
        split at hsm
        · rename_i val
          split at hsm
          · split at hsm
            · exact absurd hsm (by simp)
            · cases hsm; rfl
          · cases hsm; rfl
        · cases hsm; rfl
      split at h
      · rename_i val
        split at h
        · cases h; simp [hdev1]
        · cases h; simp [hdev1]
      · cases h; simp [hdev1]

/-- C1 (counterexample): for the empty parent record (no conditional feature
gates enabled) and an environment with no overrides, `getKVDevConfig` does
*not* return nil: it returns a developer configuration holding the seven
hard-coded feature gates, because the resolved gate list is never empty. -/
theorem devconfig_nil_counterexample :
    getKVDevConfig envEmpty hcEmpty =
      Except.ok (some { featureGates := hardCodeKvFgs, useEmulation := false }) ∧
    getKVDevConfig envEmpty hcEmpty ≠ Except.ok none :=
  ⟨by decide, by decide⟩

/-- C1 (amended): the developer-configuration block is always built (never
nil): the resolved gate list always contains the hard-coded gates, so for
every parent record and environment a successful `getKVDevConfig` returns a
configuration carrying the resolved gate list, and every KubeVirt object
successfully built by `NewKubeVirt` (with no patch annotation) carries a
developer-configuration block. -/
theorem devconfig_always_built :
    (∀ (env : Env) (hc : HyperConverged) (d : Option DeveloperConfiguration),
        getKVDevConfig env hc = Except.ok d →
          ∃ dc, d = some dc ∧ dc.featureGates = getKvFeatureGateList hc.spec.featureGates) ∧
    (∀ (decodeSmbios : String → Except String SMBiosConfiguration) (env : Env)
        (hc : HyperConverged) (kv : KubeVirt),
        NewKubeVirt decodeSmbios Except.ok env hc = Except.ok kv →
          kv.spec.configuration.developerConfiguration.isSome = true) := by
  refine ⟨getKVDevConfig_ok, ?_⟩
  intro decodeSmbios env hc kv h
  simp only [NewKubeVirt] at h
  split at h
  · exact absurd h (by simp)
  · rename_i config hconf
    cases h
    exact getKVConfig_ok_devsome decodeSmbios env hc config hconf

/-- C1 witness: the amended claim evaluated at the empty parent and empty
environment. -/
theorem devconfig_always_built_witness :
    (∃ dc, (some { featureGates := hardCodeKvFgs, useEmulation := false } :
        Option DeveloperConfiguration) = some dc ∧
        dc.featureGates = getKvFeatureGateList hcEmpty.spec.featureGates) ∧
    builtKv.spec.configuration.developerConfiguration.isSome = true :=
  ⟨devconfig_always_built.1 envEmpty hcEmpty _ (by decide),
   devconfig_always_built.2 decode0 envEmpty hcEmpty builtKv (by decide)⟩

/-- C7: if the emulation environment variable is set to a non-blank string
that is not a valid boolean, `NewKubeVirt` fails with a decode error and no
object is returned, for every decoder, patch mechanism, and parent record. -/
theorem newkubevirt_fails_on_invalid_emulation
    (decodeSmbios : String → Except String SMBiosConfiguration)
    (applyPatchToSpec : KubeVirt → Except String KubeVirt)
    (env : Env) (hc : HyperConverged) (s : String)
    (hset : env.kvmEmulation = some s) (hne : trimSpace s ≠ "")
    (hbad : parseBool (trimSpace s) = none) :
    ∃ e, NewKubeVirt decodeSmbios applyPatchToSpec env hc = Except.error e := by
  have hdev : getKVDevConfig env hc =
      Except.error ("strconv.ParseBool: parsing " ++ trimSpace s ++ ": invalid syntax") := by
    simp only [getKVDevConfig, hset, hne, hbad, if_true, ne_eq, not_false_eq_true, if_pos]
  refine ⟨"strconv.ParseBool: parsing " ++ trimSpace s ++ ": invalid syntax", ?_⟩
  simp only [NewKubeVirt, getKVConfig, hdev]

/-- C7 witness: the spec's scenario (machine-type override set, emulation
variable `"maybe"`). -/
theorem newkubevirt_fails_on_invalid_emulation_witness :
    ∃ e, NewKubeVirt decode0 Except.ok envBadEmulation hcEmpty = Except.error e :=
  newkubevirt_fails_on_invalid_emulation decode0 Except.ok envBadEmulation hcEmpty "maybe"
    (by decide) (by decide) (by decide)

/-- C2 (counterexample): for the config-resource operand with
`HCOTriggered = false` (externally observed drift), a detected and
successfully applied change still reports `isUpgradeForcedChange = false`,
refuting the claim that every operand kind reports `true` in that case. -/
theorem attribution_flag_counterexample :
    ∃ out, kvConfigHooks.updateCr { hcoTriggered := false, upgradeMode := false } {}
        foundCmFixture requiredCmFixture = some out ∧
      out.changed = true ∧ out.err = none ∧ out.forced = false :=
  ⟨_, rfl, rfl, rfl, rfl⟩

/-- C2 (amended): the virtualization-runtime and priority-class operands
report `isUpgradeForcedChange = !HCOTriggered` on a successful change, but
the config-resource operand's `updateCr` always reports `false` in the
second position, even for externally observed drift. -/
theorem attribution_flag_per_kind :
    (∀ (req : HcoRequest) (cl : ClientStub) (found virt : KubeVirt),
        (kubevirtHooks.updateCr req cl found virt).changed = true →
          (kubevirtHooks.updateCr req cl found virt).forced = !req.hcoTriggered) ∧
    (∀ (req : HcoRequest) (cl : ClientStub) (found pc : PriorityClass),
        (kvPriorityClassHooks.updateCr req cl found pc).changed = true →
          (kvPriorityClassHooks.updateCr req cl found pc).forced = !req.hcoTriggered) ∧
    (∀ (req : HcoRequest) (cl : ClientStub) (found required : ConfigMap)
        (out : UpdateOutcome ConfigMap),
        kvConfigHooks.updateCr req cl found required = some out →
          out.forced = false) := by
  refine ⟨?_, ?_, ?_⟩
  · intro req cl found virt h
    by_cases hcond : found.spec ≠ virt.spec ∨ found.objectMeta.labels ≠ virt.objectMeta.labels
    · cases herr : cl.updateErr with
      | some e => simp [kubevirtHooks.updateCr, hcond, herr] at h
      | none => simp [kubevirtHooks.updateCr, hcond, herr]
    · simp [kubevirtHooks.updateCr, hcond] at h
  · intro req cl found pc h
    by_cases hcond : pc.objectMeta.name = found.objectMeta.name ∧ pc.value = found.value ∧
        pc.description = found.description ∧ pc.objectMeta.labels = found.objectMeta.labels
    · simp [kvPriorityClassHooks.updateCr, hcond] at h
    · cases hdel : cl.deleteErr with
      | some e => simp [kvPriorityClassHooks.updateCr, hcond, hdel] at h
      | none =>
        cases hcr : cl.createErr with
        | some e => simp [kvPriorityClassHooks.updateCr, hcond, hdel, hcr] at h
        | none => simp [kvPriorityClassHooks.updateCr, hcond, hdel, hcr]
  · intro req cl found required out h
    simp only [kvConfigHooks.updateCr] at h
    split at h
    · exact absurd h (by simp)
    · split at h
      · exact absurd h (by simp)
      · split at h
        all_goals
          dsimp only at h
          split at h
          · cases h
            simp only [kvConfigHooks.updateKvConfigMap]
            cases cl.updateErr <;> rfl
          · cases h
            rfl

/-- C2 witness: the amended claim evaluated at concrete drifted objects for
each of the three operand kinds. -/
theorem attribution_flag_per_kind_witness :
    (kubevirtHooks.updateCr { hcoTriggered := false } {} foundKvFixture
        desiredKvFixture).forced = !(false : Bool) ∧
    (kvPriorityClassHooks.updateCr { hcoTriggered := false } {} foundPcFixture
        (NewKubeVirtPriorityClass hcEmpty)).forced = !(false : Bool) ∧
    configUpdateOutFixture.forced = false :=
  ⟨attribution_flag_per_kind.1 { hcoTriggered := false } {} foundKvFixture desiredKvFixture
      (by decide),
   attribution_flag_per_kind.2.1 { hcoTriggered := false } {} foundPcFixture
      (NewKubeVirtPriorityClass hcEmpty) (by decide),
   attribution_flag_per_kind.2.2 { hcoTriggered := false, upgradeMode := false } {}
      foundCmFixture requiredCmFixture configUpdateOutFixture (by decide)⟩

/-- C4: the priority-class `updateCr` returns `(false, false, nil)` with no
client call exactly when name, value, description and labels all match; on
any difference it never issues a field-level update, and (delete verb
succeeding) issues a delete of the live object followed by a create of the
desired object. -/
theorem priorityclass_update_semantics (req : HcoRequest) (cl : ClientStub)
    (found pc : PriorityClass) :
    (((kvPriorityClassHooks.updateCr req cl found pc).changed = false ∧
      (kvPriorityClassHooks.updateCr req cl found pc).forced = false ∧
      (kvPriorityClassHooks.updateCr req cl found pc).err = none ∧
      (kvPriorityClassHooks.updateCr req cl found pc).calls = []) ↔
     (pc.objectMeta.name = found.objectMeta.name ∧ pc.value = found.value ∧
      pc.description = found.description ∧
      pc.objectMeta.labels = found.objectMeta.labels)) ∧
    (¬(pc.objectMeta.name = found.objectMeta.name ∧ pc.value = found.value ∧
       pc.description = found.description ∧
       pc.objectMeta.labels = found.objectMeta.labels) →
      (∀ o, ClientAction.update o ∉ (kvPriorityClassHooks.updateCr req cl found pc).calls) ∧
      (cl.deleteErr = none →
        (kvPriorityClassHooks.updateCr req cl found pc).calls =
          [ClientAction.delete found, ClientAction.create pc])) := by
  by_cases hcond : pc.objectMeta.name = found.objectMeta.name ∧ pc.value = found.value ∧
      pc.description = found.description ∧ pc.objectMeta.labels = found.objectMeta.labels
  · simp [kvPriorityClassHooks.updateCr, hcond]
  · cases hdel : cl.deleteErr with
    | some e => simp [kvPriorityClassHooks.updateCr, hcond, hdel]
    | none =>
      cases hcr : cl.createErr with
      | some e => simp [kvPriorityClassHooks.updateCr, hcond, hdel, hcr]
      | none => simp [kvPriorityClassHooks.updateCr, hcond, hdel, hcr]

/-- C4 witness: a live priority class differing in value is reconciled by
delete-then-create. -/
theorem priorityclass_update_semantics_witness :
    (kvPriorityClassHooks.updateCr {} {} foundPcFixture
        (NewKubeVirtPriorityClass hcEmpty)).calls =
      [ClientAction.delete foundPcFixture,
       ClientAction.create (NewKubeVirtPriorityClass hcEmpty)] :=
  ((priorityclass_update_semantics {} {} foundPcFixture
      (NewKubeVirtPriorityClass hcEmpty)).2 (by decide)).2 rfl

/-- C8: the virtualization-runtime `updateCr` reports a change exactly when
the live spec or labels differ (deep comparison) from desired; on a
difference it copies only labels and spec into the live object (preserving
its other fields) and issues a single update call; when nothing differs it
does nothing. -/
theorem kubevirt_update_semantics (req : HcoRequest) (cl : ClientStub)
    (found virt : KubeVirt) :
    (cl.updateErr = none →
      ((kubevirtHooks.updateCr req cl found virt).changed = true ↔
        (found.spec ≠ virt.spec ∨ found.objectMeta.labels ≠ virt.objectMeta.labels))) ∧
    ((found.spec ≠ virt.spec ∨ found.objectMeta.labels ≠ virt.objectMeta.labels) →
      (kubevirtHooks.updateCr req cl found virt).live =
        { found with
            objectMeta := { found.objectMeta with labels := virt.objectMeta.labels }
            spec := virt.spec } ∧
      (kubevirtHooks.updateCr req cl found virt).calls =
        [ClientAction.update ((kubevirtHooks.updateCr req cl found virt).live)]) ∧
    (¬(found.spec ≠ virt.spec ∨ found.objectMeta.labels ≠ virt.objectMeta.labels) →
      kubevirtHooks.updateCr req cl found virt =
        { changed := false, forced := false, err := none, live := found, calls := [] }) := by
  by_cases hcond : found.spec ≠ virt.spec ∨ found.objectMeta.labels ≠ virt.objectMeta.labels
  · cases herr : cl.updateErr with
    | some e => simp [kubevirtHooks.updateCr, DeepCopyLabels, hcond, herr]
    | none => simp [kubevirtHooks.updateCr, DeepCopyLabels, hcond, herr]
  · simp [kubevirtHooks.updateCr, hcond]

/-- C8 witness: a live object with drifted spec is updated in place. -/
theorem kubevirt_update_semantics_witness :
    (kubevirtHooks.updateCr {} {} foundKvFixture desiredKvFixture).live =
      { foundKvFixture with
          objectMeta := { foundKvFixture.objectMeta with
                            labels := desiredKvFixture.objectMeta.labels }
          spec := desiredKvFixture.spec } ∧
    ((kubevirtHooks.updateCr {} {} foundKvFixture desiredKvFixture).changed = true ↔
      (foundKvFixture.spec ≠ desiredKvFixture.spec ∨
       foundKvFixture.objectMeta.labels ≠ desiredKvFixture.objectMeta.labels)) :=
  ⟨((kubevirt_update_semantics {} {} foundKvFixture desiredKvFixture).2.1 (by decide)).1,
   (kubevirt_update_semantics {} {} foundKvFixture desiredKvFixture).1 rfl⟩

/-- C9: a successful `getFullCr` caches the desired object: a second call
with the same parent returns the same object and leaves the hook state
unchanged, and after `reset` the cache is cleared so the next `getFullCr`
builds a fresh object with `NewKubeVirt`. -/
theorem kubevirt_getFullCr_cache (decodeSmbios : String → Except String SMBiosConfiguration)
    (applyPatchToSpec : KubeVirt → Except String KubeVirt) (env : Env)
    (h : kubevirtHooks) (hc : HyperConverged) (kv : KubeVirt) (h1 : kubevirtHooks)
    (hcall : kubevirtHooks.getFullCr decodeSmbios applyPatchToSpec env h hc =
      (Except.ok kv, h1)) :
    kubevirtHooks.getFullCr decodeSmbios applyPatchToSpec env h1 hc = (Except.ok kv, h1) ∧
    (h1.reset).cache = none ∧
    (kubevirtHooks.getFullCr decodeSmbios applyPatchToSpec env h1.reset hc).1 =
      NewKubeVirt decodeSmbios applyPatchToSpec env hc := by
  have hcache : h1.cache = some kv := by
    simp only [kubevirtHooks.getFullCr] at hcall
    split at hcall
    · rename_i kv0 hkv0
      cases hcall
      exact hkv0
    · split at hcall
      · exact absurd hcall (by simp)
      · rename_i kv0 hkv0
        cases hcall
        rfl
  refine ⟨?_, rfl, ?_⟩
  · simp only [kubevirtHooks.getFullCr, hcache]
  · simp only [kubevirtHooks.getFullCr, kubevirtHooks.reset]
    split
    · rename_i e he
      simp [he]
    · rename_i kv0 hkv0
      simp [hkv0]

/-- C9 witness: evaluated at a hook whose cache holds a concrete object. -/
theorem kubevirt_getFullCr_cache_witness :
    kubevirtHooks.getFullCr decode0 Except.ok envEmpty { cache := some cachedKvFixture }
        hcEmpty = (Except.ok cachedKvFixture, { cache := some cachedKvFixture }) ∧
    (kubevirtHooks.reset { cache := some cachedKvFixture }).cache = none ∧
    (kubevirtHooks.getFullCr decode0 Except.ok envEmpty
        (kubevirtHooks.reset { cache := some cachedKvFixture }) hcEmpty).1 =
      NewKubeVirt decode0 Except.ok envEmpty hcEmpty :=
  kubevirt_getFullCr_cache decode0 Except.ok envEmpty { cache := some cachedKvFixture }
    hcEmpty cachedKvFixture { cache := some cachedKvFixture } rfl

-- helper lemmas about the config-map operations

theorem ConfigMap.dataGet_eq_dataFind (cm : ConfigMap) (k : String) :
    cm.dataGet k = (cm.dataFind k).getD "" := rfl

theorem updateKvConfigMap_live (cl : ClientStub) (f : ConfigMap) :
    (kvConfigHooks.updateKvConfigMap cl f).live = f := by
  rcases hcl : cl.updateErr with _ | e <;> simp [kvConfigHooks.updateKvConfigMap, hcl]

theorem addEnvOverride_find_ne (d : Gomap) (key : String) (o : Option String) (k : String)
    (h : k ≠ key) : (addEnvOverride d key o).find k = d.find k := by
  cases o with
  | none => rfl
  | some val =>
    simp only [addEnvOverride]
    split
    · exact Gomap.find_insert_ne d key val k h
    · rfl

theorem addEnvOverride_find_self (d : Gomap) (key : String) (o : Option String)
    (hd : d.find key = none) :
    (addEnvOverride d key o).find key =
      (match o with
       | some val => if val ≠ "" then some val else none
       | none => none) := by
  cases o with
  | none => exact hd
  | some val =>
    simp only [addEnvOverride]
    split
    · exact Gomap.find_insert_self d key val
    · exact hd

theorem base_find_eval (v1 v2 v3 : String) (k : String) :
    Gomap.find [(FeatureGatesKey, v1), (SELinuxLauncherTypeKey, v2),
       (NetworkInterfaceKey, v3)] k =
      (if k = FeatureGatesKey then some v1
       else if k = SELinuxLauncherTypeKey then some v2
       else if k = NetworkInterfaceKey then some v3
       else none) := by
  by_cases h1 : k = FeatureGatesKey
  · subst h1
    simp [Gomap.find, Gomap.lookup_cons]
  · by_cases h2 : k = SELinuxLauncherTypeKey
    · subst h2
      simp [Gomap.find, Gomap.lookup_cons, h1, beq_iff_eq]
    · by_cases h3 : k = NetworkInterfaceKey
      · subst h3
        simp [Gomap.find, Gomap.lookup_cons, h1, h2, beq_iff_eq]
      · simp [Gomap.find, Gomap.lookup_cons, h1, h2, h3, beq_iff_eq]

theorem updateData_spec (found required : ConfigMap) (m : Gomap)
    (hm : found.data = some m) :
    ∃ f c, kvConfigHooks.updateData found required = some (f, c) ∧
      f.objectMeta = found.objectMeta ∧ (∃ m', f.data = some m') ∧
      (∀ k, k ≠ FeatureGatesKey → f.dataFind k = found.dataFind k) ∧
      f.dataGet FeatureGatesKey = required.dataGet FeatureGatesKey := by
  by_cases hne : found.dataGet FeatureGatesKey ≠ required.dataGet FeatureGatesKey
  · refine ⟨{ found with
        data := some (m.insert FeatureGatesKey (required.dataGet FeatureGatesKey)) },
      true, ?_, rfl, ⟨_, rfl⟩, ?_, ?_⟩
    · unfold kvConfigHooks.updateData
      rw [if_pos hne, hm]
    · intro k hk
      simp only [ConfigMap.dataFind, hm, Option.getD_some]
      exact Gomap.find_insert_ne m FeatureGatesKey _ k hk
    · simp only [ConfigMap.dataGet, Option.getD_some, Gomap.get_eq_find_getD,
        Gomap.find_insert_self]
  · have heq : found.dataGet FeatureGatesKey = required.dataGet FeatureGatesKey :=
      not_not.mp hne
    refine ⟨found, false, ?_, rfl, ⟨m, hm⟩, fun k _ => rfl, heq⟩
    unfold kvConfigHooks.updateData
    rw [if_neg hne]

theorem forceDefaultValues_spec (found required : ConfigMap) (k0 : String) (m : Gomap)
    (hm : found.data = some m) :
    ∃ f c, kvConfigHooks.forceDefaultValues found required k0 = some (f, c) ∧
      f.objectMeta = found.objectMeta ∧ (∃ m', f.data = some m') ∧
      (∀ k, k ≠ k0 → f.dataFind k = found.dataFind k) ∧
      f.dataGet k0 = required.dataGet k0 := by
  by_cases hne : found.dataGet k0 ≠ required.dataGet k0
  · refine ⟨{ found with data := some (m.insert k0 (required.dataGet k0)) },
      true, ?_, rfl, ⟨_, rfl⟩, ?_, ?_⟩
    · unfold kvConfigHooks.forceDefaultValues
      rw [if_pos hne, hm]
    · intro k hk
      simp only [ConfigMap.dataFind, hm, Option.getD_some]
      exact Gomap.find_insert_ne m k0 _ k hk
    · simp only [ConfigMap.dataGet, Option.getD_some, Gomap.get_eq_find_getD,
        Gomap.find_insert_self]
  · have heq : found.dataGet k0 = required.dataGet k0 := not_not.mp hne
    refine ⟨found, false, ?_, rfl, ⟨m, hm⟩, fun k _ => rfl, heq⟩
    unfold kvConfigHooks.forceDefaultValues
    rw [if_neg hne]

theorem forceFold_spec (required : ConfigMap) (ks : List String) (f0 : ConfigMap) (c0 : Bool)
    (m : Gomap) (hm : f0.data = some m) :
    ∃ f c, List.foldlM (kvConfigHooks.forceStep required) (f0, c0) ks = some (f, c) ∧
      f.objectMeta = f0.objectMeta ∧ (∃ m', f.data = some m') ∧
      (∀ k, k ∉ ks → f.dataFind k = f0.dataFind k) ∧
      (∀ k ∈ ks, f.dataGet k = required.dataGet k) := by
  induction ks generalizing f0 c0 m with
  | nil => exact ⟨f0, c0, rfl, rfl, ⟨m, hm⟩, fun k _ => rfl, by simp⟩
  | cons k0 ks ih =>
    obtain ⟨f1, c1, hstep, hmeta1, ⟨m1, hm1⟩, hframe1, hforce1⟩ :=
      forceDefaultValues_spec f0 required k0 m hm
    obtain ⟨f, c, hfold, hmeta, hmsome, hframe, hforce⟩ := ih f1 (c1 || c0) m1 hm1
    refine ⟨f, c, ?_, hmeta.trans hmeta1, hmsome, ?_, ?_⟩
    · rw [List.foldlM_cons]
      have h1 : kvConfigHooks.forceStep required (f0, c0) k0 = some (f1, c1 || c0) := by
        simp only [kvConfigHooks.forceStep, hstep]
      rw [h1]
      exact hfold
    · intro k hk
      have hk0 : k ≠ k0 := fun h => hk (h ▸ List.mem_cons_self k0 ks)
      have hks : k ∉ ks := fun h => hk (List.mem_cons_of_mem _ h)
      rw [hframe k hks, hframe1 k hk0]
    · intro k hk
      rcases List.mem_cons.mp hk with rfl | hks
      · by_cases hmem : k ∈ ks
        · exact hforce _ hmem
        · rw [ConfigMap.dataGet_eq_dataFind, hframe k hmem, ← ConfigMap.dataGet_eq_dataFind]
          exact hforce1
      · exact hforce _ hks

theorem removeOldKeys_spec (found : ConfigMap) :
    (kvConfigHooks.removeOldKeys found).1.objectMeta = found.objectMeta ∧
    (kvConfigHooks.removeOldKeys found).1.dataFind MigrationsConfigKey = none ∧
    (∀ k, k ≠ MigrationsConfigKey →
      (kvConfigHooks.removeOldKeys found).1.dataFind k = found.dataFind k) ∧
    (kvConfigHooks.removeOldKeys found).1.data.isSome = found.data.isSome := by
  by_cases hmig : (found.dataFind MigrationsConfigKey).isSome = true
  · cases hd : found.data with
    | none =>
      exfalso
      have : found.dataFind MigrationsConfigKey = none := by
        simp [ConfigMap.dataFind, hd, Gomap.find]
      rw [this] at hmig
      exact absurd hmig (by simp)
    | some m =>
      have hr : kvConfigHooks.removeOldKeys found =
          ({ found with data := some (m.erase MigrationsConfigKey) }, true) := by
        unfold kvConfigHooks.removeOldKeys
        rw [if_pos hmig, hd]
        rfl
      rw [hr]
      refine ⟨rfl, ?_, ?_, ?_⟩
      · simp only [ConfigMap.dataFind, Option.getD_some]
        exact Gomap.find_erase_self m MigrationsConfigKey
      · intro k hk
        simp only [ConfigMap.dataFind, Option.getD_some, hd]
        exact Gomap.find_erase m MigrationsConfigKey k hk
      · simp [hd]
  · have hr : kvConfigHooks.removeOldKeys found = (found, false) := by
      unfold kvConfigHooks.removeOldKeys
      rw [if_neg hmig]
    rw [hr]
    refine ⟨rfl, ?_, fun _ _ => rfl, rfl⟩
    cases hv : found.dataFind MigrationsConfigKey with
    | none => rfl
    | some v => exact absurd (by rw [hv]; rfl) hmig

theorem updateDataOnUpgrade_spec (found required : ConfigMap) (m : Gomap)
    (hm : found.data = some m) :
    ∃ f c, kvConfigHooks.updateDataOnUpgrade found required = some (f, c) ∧
      f.objectMeta = found.objectMeta ∧ (∃ m', f.data = some m') ∧
      (∀ k ∈ [SmbiosConfigKey, MachineTypeKey, SELinuxLauncherTypeKey, UseEmulationKey],
        f.dataGet k = required.dataGet k) ∧
      f.dataFind MigrationsConfigKey = none ∧
      (∀ k, k ∉ [SmbiosConfigKey, MachineTypeKey, SELinuxLauncherTypeKey, UseEmulationKey] →
        k ≠ MigrationsConfigKey → f.dataFind k = found.dataFind k) := by
  obtain ⟨f1, c1, hfold, hmeta1, ⟨m1, hm1⟩, hframe1, hforce1⟩ :=
    forceFold_spec required
      [SmbiosConfigKey, MachineTypeKey, SELinuxLauncherTypeKey, UseEmulationKey] found false m hm
  obtain ⟨hmeta2, hmig2, hframe2, hsome2⟩ := removeOldKeys_spec f1
  refine ⟨(kvConfigHooks.removeOldKeys f1).1,
    c1 || (kvConfigHooks.removeOldKeys f1).2, ?_, hmeta2.trans hmeta1, ?_, ?_, hmig2, ?_⟩
  · unfold kvConfigHooks.updateDataOnUpgrade kvConfigHooks.forceDefaultKeys
    rw [hfold]
  · rw [hm1] at hsome2
    cases ho : (kvConfigHooks.removeOldKeys f1).1.data with
    | none => rw [ho] at hsome2; exact absurd hsome2 (by simp)
    | some mm => exact ⟨mm, rfl⟩
  · intro k hk
    have hkmig : k ≠ MigrationsConfigKey := by
      simp only [List.mem_cons, List.mem_singleton, List.not_mem_nil, or_false] at hk
      rcases hk with rfl | rfl | rfl | rfl <;> decide
    rw [ConfigMap.dataGet_eq_dataFind, hframe2 k hkmig, ← ConfigMap.dataGet_eq_dataFind]
    exact hforce1 k hk
  · intro k hk hkm
    rw [hframe2 k hkm, hframe1 k hk]

theorem forceFold_nildata (required : ConfigMap) (ks : List String) (st : ConfigMap × Bool)
    (hm : st.1.data = none) :
    List.foldlM (kvConfigHooks.forceStep required) st ks = none ∨
    List.foldlM (kvConfigHooks.forceStep required) st ks = some st := by
  induction ks generalizing st with
  | nil => exact Or.inr rfl
  | cons k0 ks ih =>
    by_cases hne : st.1.dataGet k0 ≠ required.dataGet k0
    · left
      have h0 : kvConfigHooks.forceStep required st k0 = none := by
        unfold kvConfigHooks.forceStep kvConfigHooks.forceDefaultValues
        rw [if_pos hne, hm]
      rw [List.foldlM_cons, h0]
      rfl
    · have h0 : kvConfigHooks.forceStep required st k0 = some st := by
        unfold kvConfigHooks.forceStep kvConfigHooks.forceDefaultValues
        rw [if_neg hne]
        simp
      rw [List.foldlM_cons, h0]
      exact ih st hm

theorem NewKubeVirtConfigForCR_find (env : Env) (cr : HyperConverged) (ns : String)
    (k : String) :
    (NewKubeVirtConfigForCR env cr ns).dataFind k = expectedConfigData env cr k := by
  simp only [NewKubeVirtConfigForCR, ConfigMap.dataFind, Option.getD_some]
  by_cases h1 : k = FeatureGatesKey
  · subst h1
    rw [addEnvOverride_find_ne _ _ _ _ (by decide), addEnvOverride_find_ne _ _ _ _ (by decide),
        addEnvOverride_find_ne _ _ _ _ (by decide), base_find_eval, if_pos rfl,
        expectedConfigData, if_pos rfl]
  · by_cases h2 : k = SELinuxLauncherTypeKey
    · subst h2
      rw [addEnvOverride_find_ne _ _ _ _ (by decide), addEnvOverride_find_ne _ _ _ _ (by decide),
          addEnvOverride_find_ne _ _ _ _ (by decide), base_find_eval, if_neg (by decide),
          if_pos rfl, expectedConfigData, if_neg (by decide), if_pos rfl]
    · by_cases h3 : k = NetworkInterfaceKey
      · subst h3
        rw [addEnvOverride_find_ne _ _ _ _ (by decide), addEnvOverride_find_ne _ _ _ _ (by decide),
            addEnvOverride_find_ne _ _ _ _ (by decide), base_find_eval, if_neg (by decide),
            if_neg (by decide), if_pos rfl, expectedConfigData, if_neg (by decide),
            if_neg (by decide), if_pos rfl]
      · by_cases h4 : k = SmbiosConfigKey
        · subst h4
          rw [addEnvOverride_find_ne _ _ _ _ (by decide),
              addEnvOverride_find_ne _ _ _ _ (by decide),
              addEnvOverride_find_self _ _ _ (by
                rw [base_find_eval, if_neg (by decide), if_neg (by decide), if_neg (by decide)]),
              expectedConfigData, if_neg (by decide), if_neg (by decide), if_neg (by decide),
              if_pos rfl]
        · by_cases h5 : k = MachineTypeKey
          · subst h5
            rw [addEnvOverride_find_ne _ _ _ _ (by decide),
                addEnvOverride_find_self _ _ _ (by
                  rw [addEnvOverride_find_ne _ _ _ _ (by decide), base_find_eval,
                      if_neg (by decide), if_neg (by decide), if_neg (by decide)]),
                expectedConfigData, if_neg (by decide), if_neg (by decide), if_neg (by decide),
                if_neg (by decide), if_pos rfl]
          · by_cases h6 : k = UseEmulationKey
            · subst h6
              rw [addEnvOverride_find_self _ _ _ (by
                    rw [addEnvOverride_find_ne _ _ _ _ (by decide),
                        addEnvOverride_find_ne _ _ _ _ (by decide), base_find_eval,
                        if_neg (by decide), if_neg (by decide), if_neg (by decide)]),
                  expectedConfigData, if_neg (by decide), if_neg (by decide),
                  if_neg (by decide), if_neg (by decide), if_neg (by decide), if_pos rfl]
            · rw [addEnvOverride_find_ne _ _ _ _ h6, addEnvOverride_find_ne _ _ _ _ h5,
                  addEnvOverride_find_ne _ _ _ _ h4, base_find_eval, if_neg h1, if_neg h2,
                  if_neg h3, expectedConfigData, if_neg h1, if_neg h2, if_neg h3, if_neg h4,
                  if_neg h5, if_neg h6]

theorem NewKubeVirtConfigForCR_fg_nonempty (env : Env) (cr : HyperConverged) (ns : String) :
    (NewKubeVirtConfigForCR env cr ns).dataGet FeatureGatesKey ≠ "" := by
  rw [ConfigMap.dataGet_eq_dataFind, NewKubeVirtConfigForCR_find, expectedConfigData,
      if_pos rfl]
  exact featureGates_string_ne_empty cr.spec.featureGates

theorem updateCr_from_first (req : HcoRequest) (cl : ClientStub) (found required : ConfigMap)
    (f1 : ConfigMap) (c1 : Bool) (m1 : Gomap)
    (hfirst : (if req.upgradeMode = true then kvConfigHooks.updateDataOnUpgrade found required
               else some (found, false)) = some (f1, c1))
    (hm1 : f1.data = some m1) :
    ∃ out, kvConfigHooks.updateCr req cl found required = some out ∧
      (∀ k, k ≠ FeatureGatesKey → out.live.dataFind k = f1.dataFind k) ∧
      out.live.dataGet FeatureGatesKey = required.dataGet FeatureGatesKey := by
  obtain ⟨f2, c2, hud, hmeta2, ⟨m2, hm2⟩, hframe2, hfg2⟩ := updateData_spec f1 required m1 hm1
  have key : ∀ f3 : ConfigMap, f3.data = f2.data →
      (∀ k, k ≠ FeatureGatesKey → f3.dataFind k = f1.dataFind k) ∧
      f3.dataGet FeatureGatesKey = required.dataGet FeatureGatesKey := by
    intro f3 h3
    constructor
    · intro k hk
      simp only [ConfigMap.dataFind, h3]
      exact hframe2 k hk
    · simp only [ConfigMap.dataGet_eq_dataFind, ConfigMap.dataFind, h3]
      exact hfg2
  have hval : kvConfigHooks.updateCr req cl found required =
      (if f2.objectMeta.labels ≠ required.objectMeta.labels then
        some (kvConfigHooks.updateKvConfigMap cl
          { f2 with objectMeta := DeepCopyLabels required.objectMeta f2.objectMeta })
      else if (c2 || c1) = true then some (kvConfigHooks.updateKvConfigMap cl f2)
      else some { changed := false, forced := false, err := none, live := f2, calls := [] }) := by
    simp only [kvConfigHooks.updateCr, hfirst, hud]
    by_cases hlab : f2.objectMeta.labels ≠ required.objectMeta.labels <;> simp [hlab]
  rw [hval]
  split_ifs with hl1 hl2
  · refine ⟨_, rfl, ?_, ?_⟩ <;> rw [updateKvConfigMap_live]
    · exact (key _ rfl).1
    · exact (key _ rfl).2
  · refine ⟨_, rfl, ?_, ?_⟩ <;> rw [updateKvConfigMap_live]
    · exact (key _ rfl).1
    · exact (key _ rfl).2
  · exact ⟨_, rfl, (key f2 rfl).1, (key f2 rfl).2⟩

/-- C5: outside upgrade mode, the config-resource `updateCr` leaves every
data key other than the feature-gates key unchanged (in particular a
non-default `selinuxLauncherType` survives and the `migrations` key is not
removed); in upgrade mode it forces the smbios, machine-type,
selinuxLauncherType and debug.useEmulation keys to the desired values and
removes the deprecated `migrations` key if present. -/
theorem config_update_frame_and_upgrade :
    (∀ (req : HcoRequest) (cl : ClientStub) (found required : ConfigMap) (m : Gomap),
        req.upgradeMode = false → found.data = some m →
        ∃ out, kvConfigHooks.updateCr req cl found required = some out ∧
          ∀ k, k ≠ FeatureGatesKey → out.live.dataFind k = found.dataFind k) ∧
    (∀ (req : HcoRequest) (cl : ClientStub) (found required : ConfigMap) (m : Gomap),
        req.upgradeMode = true → found.data = some m →
        ∃ out, kvConfigHooks.updateCr req cl found required = some out ∧
          (∀ k ∈ [SmbiosConfigKey, MachineTypeKey, SELinuxLauncherTypeKey, UseEmulationKey],
            out.live.dataGet k = required.dataGet k) ∧
          out.live.dataFind MigrationsConfigKey = none ∧
          (∀ k, k ∉ [SmbiosConfigKey, MachineTypeKey, SELinuxLauncherTypeKey, UseEmulationKey] →
            k ≠ MigrationsConfigKey → k ≠ FeatureGatesKey →
            out.live.dataFind k = found.dataFind k)) := by
  constructor
  · intro req cl found required m hup hm
    have hfirst : (if req.upgradeMode = true then
        kvConfigHooks.updateDataOnUpgrade found required
        else some (found, false)) = some (found, false) := by
      simp [hup]
    obtain ⟨out, hout, hframe, -⟩ :=
      updateCr_from_first req cl found required found false m hfirst hm
    exact ⟨out, hout, hframe⟩
  · intro req cl found required m hup hm
    obtain ⟨fU, cU, hupg, hmetaU, ⟨mU, hmU⟩, hforceU, hmigU, hframeU⟩ :=
      updateDataOnUpgrade_spec found required m hm
    have hfirst : (if req.upgradeMode = true then
        kvConfigHooks.updateDataOnUpgrade found required
        else some (found, false)) = some (fU, cU) := by
      simp [hup, hupg]
    obtain ⟨out, hout, hframe, -⟩ :=
      updateCr_from_first req cl found required fU cU mU hfirst hmU
    refine ⟨out, hout, ?_, ?_, ?_⟩
    · intro k hk
      have hkfg : k ≠ FeatureGatesKey := by
        simp only [List.mem_cons, List.mem_singleton, List.not_mem_nil, or_false] at hk
        rcases hk with rfl | rfl | rfl | rfl <;> decide
      rw [ConfigMap.dataGet_eq_dataFind, hframe k hkfg, ← ConfigMap.dataGet_eq_dataFind]
      exact hforceU k hk
    · rw [hframe MigrationsConfigKey (by decide)]
      exact hmigU
    · intro k hk hkm hkf
      rw [hframe k hkf]
      exact hframeU k hk hkm

/-- C5 witness: a live config resource with a custom SELinux launcher type,
a migrations key and drifted feature gates, reconciled against the built
desired object, outside and inside upgrade mode. -/
theorem config_update_frame_and_upgrade_witness :
    (∃ out, kvConfigHooks.updateCr { upgradeMode := false } {} upgradeFoundCmFixture
        requiredBuiltCmFixture = some out ∧
      ∀ k, k ≠ FeatureGatesKey →
        out.live.dataFind k = upgradeFoundCmFixture.dataFind k) ∧
    (∃ out, kvConfigHooks.updateCr { upgradeMode := true } {} upgradeFoundCmFixture
        requiredBuiltCmFixture = some out ∧
      (∀ k ∈ [SmbiosConfigKey, MachineTypeKey, SELinuxLauncherTypeKey, UseEmulationKey],
        out.live.dataGet k = requiredBuiltCmFixture.dataGet k) ∧
      out.live.dataFind MigrationsConfigKey = none ∧
      (∀ k, k ∉ [SmbiosConfigKey, MachineTypeKey, SELinuxLauncherTypeKey, UseEmulationKey] →
        k ≠ MigrationsConfigKey → k ≠ FeatureGatesKey →
        out.live.dataFind k = upgradeFoundCmFixture.dataFind k)) :=
  ⟨config_update_frame_and_upgrade.1 { upgradeMode := false } {} upgradeFoundCmFixture
      requiredBuiltCmFixture
      [(FeatureGatesKey, "old"), (SELinuxLauncherTypeKey, "custom_t"),
       (MigrationsConfigKey, "{}")] rfl rfl,
   config_update_frame_and_upgrade.2 { upgradeMode := true } {} upgradeFoundCmFixture
      requiredBuiltCmFixture
      [(FeatureGatesKey, "old"), (SELinuxLauncherTypeKey, "custom_t"),
       (MigrationsConfigKey, "{}")] rfl rfl⟩

/-- C6 (counterexample): a whitespace-only SMBIOS value (blank but
non-empty) does produce an override key in the built config resource,
refuting the claim that a blank environment value yields no override key. -/
theorem config_data_blank_override_counterexample :
    (NewKubeVirtConfigForCR envBlankSmbios hcEmpty "ns").dataFind SmbiosConfigKey =
      some " " := by decide

/-- C6 (amended): the built config-resource data mapping holds exactly the
three fixed keys (feature gates as the comma-joined resolved list, the
SELinux launcher type, the default network interface) plus the smbios,
machine-type and debug.useEmulation override keys, each present exactly when
its environment variable is set and non-empty — the raw, untrimmed value is
used, so a whitespace-only value still installs the key. -/
theorem config_data_characterisation (env : Env) (cr : HyperConverged) (ns : String) :
    (NewKubeVirtConfigForCR env cr ns).dataFind FeatureGatesKey =
      some (String.intercalate "," (getKvFeatureGateList cr.spec.featureGates)) ∧
    (NewKubeVirtConfigForCR env cr ns).dataFind SELinuxLauncherTypeKey =
      some "virt_launcher.process" ∧
    (NewKubeVirtConfigForCR env cr ns).dataFind NetworkInterfaceKey =
      some kubevirtDefaultNetworkInterfaceValue ∧
    (∀ k, (NewKubeVirtConfigForCR env cr ns).dataFind k = expectedConfigData env cr k) := by
  refine ⟨?_, ?_, ?_, fun k => NewKubeVirtConfigForCR_find env cr ns k⟩
  · rw [NewKubeVirtConfigForCR_find, expectedConfigData, if_pos rfl]
  · rw [NewKubeVirtConfigForCR_find, expectedConfigData, if_neg (by decide), if_pos rfl]
  · rw [NewKubeVirtConfigForCR_find, expectedConfigData, if_neg (by decide),
        if_neg (by decide), if_pos rfl]

/-- C10: the config-resource `updateCr` is only safe when the live data map
is non-nil: with a nil live data map and a desired feature-gates value that
differs (the desired value is never empty, as the second conjunct shows for
every built config resource, while a nil map reads as empty), the write into
the nil map is a panic, not a returned error. -/
theorem config_update_nil_data_panics :
    (∀ (req : HcoRequest) (cl : ClientStub) (found required : ConfigMap),
        found.data = none → required.dataGet FeatureGatesKey ≠ "" →
        kvConfigHooks.updateCr req cl found required = none) ∧
    (∀ (env : Env) (cr : HyperConverged) (ns : String),
        (NewKubeVirtConfigForCR env cr ns).dataGet FeatureGatesKey ≠ "") := by
  constructor
  · intro req cl found required hnil hfg
    have hfound0 : found.dataGet FeatureGatesKey = "" := by
      simp [ConfigMap.dataGet, hnil, Gomap.get]
    have hne : found.dataGet FeatureGatesKey ≠ required.dataGet FeatureGatesKey := by
      rw [hfound0]
      exact fun h => hfg h.symm
    have hupdData : kvConfigHooks.updateData found required = none := by
      unfold kvConfigHooks.updateData
      rw [if_pos hne, hnil]
    cases hup : req.upgradeMode with
    | false => simp [kvConfigHooks.updateCr, hup, hupdData]
    | true =>
      rcases forceFold_nildata required
          [SmbiosConfigKey, MachineTypeKey, SELinuxLauncherTypeKey, UseEmulationKey]
          (found, false) hnil with hf | hf
      · have hu : kvConfigHooks.updateDataOnUpgrade found required = none := by
          unfold kvConfigHooks.updateDataOnUpgrade kvConfigHooks.forceDefaultKeys
          rw [hf]
        simp [kvConfigHooks.updateCr, hup, hu]
      · have hmig : found.dataFind MigrationsConfigKey = none := by
          simp [ConfigMap.dataFind, hnil, Gomap.find]
        have hrem : kvConfigHooks.removeOldKeys found = (found, false) := by
          unfold kvConfigHooks.removeOldKeys
          rw [hmig]
          rfl
        have hu : kvConfigHooks.updateDataOnUpgrade found required = some (found, false) := by
          unfold kvConfigHooks.updateDataOnUpgrade kvConfigHooks.forceDefaultKeys
          rw [hf]
          simp [hrem]
        simp [kvConfigHooks.updateCr, hup, hu, hupdData]
  · exact NewKubeVirtConfigForCR_fg_nonempty

/-- C10 witness: a nil live data map against the built desired config
resource panics (and that desired object's feature-gates value is indeed
non-empty). -/
theorem config_update_nil_data_panics_witness :
    kvConfigHooks.updateCr { upgradeMode := false } {} nilDataCmFixture
      requiredBuiltCmFixture = none ∧
    (NewKubeVirtConfigForCR envEmpty hcEmpty "ns").dataGet FeatureGatesKey ≠ "" :=
  ⟨config_update_nil_data_panics.1 { upgradeMode := false } {} nilDataCmFixture
      requiredBuiltCmFixture rfl (by decide),
   config_update_nil_data_panics.2 envEmpty hcEmpty "ns"⟩
